import Mathlib

/-!
# lite-idp: the wiring performed by `server.New`

A shallow embedding of `src/server/server.go`.  The file has three functions,
`Start`, `New` and `getSigner`.  `New` is pure orchestration: it loads the
configuration, builds the store, the signer, the attribute retriever, the
protocol components and the handlers, registers the handlers on the process-wide
`http.DefaultServeMux` and returns the `idp` value.

* Everything outside the file that can fail (configuration loading, the file
  system, `xmlsig.NewSigner`, `attributes.NewJSONRetriever`,
  `handler.NewMetadataHandler`) is a field of `Env`.
* The components built by constructors of other packages are records of the
  arguments the constructor received, so that the wiring can be observed.  The
  two shared resources (store and signer) also carry an allocation number.
* The mutable state touched by `New` is a `World`: the default serve mux, the
  chronological list of external calls, and the allocation counter.
-/

set_option autoImplicit false

namespace server

/-! ## Values coming from other packages -/

/-- Go `error` values. -/
structure Error where
  msg : String
deriving DecidableEq, Repr

/-- The login form section `config.Authenticator.Fallback.Form`; `New` reads
`Context`, `Action` and `Directory`. -/
structure Form where
  Context : String
  Action : String
  Directory : String
deriving DecidableEq, Repr

/-- Section `config.Redis`. -/
structure RedisSection where
  Address : String
deriving DecidableEq, Repr

/-- Section `config.AttributeProviders.JsonStore`. -/
structure JsonStoreSection where
  File : String
deriving DecidableEq, Repr

/-- Section `config.AttributeProviders`. -/
structure AttributeProvidersSection where
  JsonStore : JsonStoreSection
deriving DecidableEq, Repr

/-- Section `config.Authenticator.Fallback`. -/
structure FallbackSection where
  Form : Form
deriving DecidableEq, Repr

/-- Section `config.Authenticator`. -/
structure AuthenticatorSection where
  Fallback : FallbackSection
deriving DecidableEq, Repr

/-- Section `config.Services`: the URL patterns of the four protocol endpoints. -/
structure ServicesSection where
  Authentication : String
  ArtifactResolution : String
  AttributeQuery : String
  Metadata : String
deriving DecidableEq, Repr

/-- The value returned by `config.LoadConfiguration()`.  The declaration lives in
package `config`, outside `server.go`; the fields are exactly the selectors that
`New` reads. -/
structure Configuration where
  Address : String
  Certificate : String
  Key : String
  EntityId : String
  Redis : RedisSection
  AttributeProviders : AttributeProvidersSection
  Authenticator : AuthenticatorSection
  Services : ServicesSection
deriving DecidableEq, Repr

/-- An opened `*os.File`: the name it was opened under and what can be read
from it. -/
structure File where
  name : String
  content : String
deriving DecidableEq, Repr

/-- The value returned by `store.New(address)`. -/
structure Store where
  id : Nat
  address : String
deriving DecidableEq, Repr

/-- The value returned by `xmlsig.NewSigner(key, cert)`. -/
structure Signer where
  id : Nat
  key : File
  cert : File
deriving DecidableEq, Repr

/-- The value returned by `attributes.NewJSONRetriever(people)`. -/
structure Retriever where
  source : File
deriving DecidableEq, Repr

/-- The value returned by `protocol.NewRedirectRequestParser()`. -/
inductive RequestParser where
  | redirect
deriving DecidableEq, Repr

/-- The two implementations of `protocol.ResponseMarshaller` that `New` builds,
each with the arguments of its constructor. -/
inductive ResponseMarshaller where
  | artifact (store : Store)
  | post (signer : Signer)
deriving DecidableEq, Repr

/-- The value returned by `protocol.NewDefaultGenerator(entityId)`. -/
structure Generator where
  entityId : String
deriving DecidableEq, Repr

/-- A Go `map[string]V`, as the list of its entries. -/
abbrev GoMap (V : Type) := List (String × V)

/-- Read `m[k]`. -/
def GoMap.get {V : Type} (m : GoMap V) (k : String) : Option V :=
  match m with
  | [] => none
  | (k', v) :: rest => if k' = k then some v else GoMap.get rest k

/-- Assignment `m[k] = v`: any earlier entry for `k` is replaced. -/
def GoMap.set {V : Type} (m : GoMap V) (k : String) (v : V) : GoMap V :=
  (k, v) :: m.filter (fun e => decide (e.1 ≠ k))

/-- The struct literal `&authnresponder{retriever, generator, marshallers}`:
three positional fields. -/
structure authnresponder where
  retriever : Retriever
  generator : Generator
  marshallers : GoMap ResponseMarshaller
deriving DecidableEq, Repr

/-- A completion callback; `New` only ever passes the bound method value
`responder.completeAuth`. -/
inductive Callback where
  | completeAuth (responder : authnresponder)
deriving DecidableEq, Repr

/-- The authenticator links, each with the arguments of its constructor:
`authentication.NewPasswordAuthenticator(callback, store, form)` and
`authentication.NewPKIAuthenticator(callback, store, next)`. -/
inductive Authenticator where
  | password (callback : Callback) (store : Store) (form : Form)
  | pki (callback : Callback) (store : Store) (next : Authenticator)
deriving DecidableEq, Repr

/-- The values registered with `http.Handle`, each with the arguments of its
constructor. -/
inductive Handler where
  | authentication (parser : RequestParser) (auth : Authenticator)
  | query (signer : Signer) (retriever : Retriever) (entityId : String)
  | artifact (store : Store) (signer : Signer) (entityId : String)
  | metadata (config : Configuration)
  | fileServer (dir : String)
  | stripPrefix (pattern : String) (inner : Handler)
  | authenticator (auth : Authenticator)
deriving DecidableEq, Repr

/-- The constants of `tls.ClientAuthType`, in declaration order. -/
inductive ClientAuthType where
  | NoClientCert
  | RequestClientCert
  | RequireAnyClientCert
  | VerifyClientCertIfGiven
  | RequireAndVerifyClientCert
deriving DecidableEq, Repr

/-- The fields of `tls.Config` that bear on which connections are accepted.  A
field that a struct literal does not mention has its zero value. -/
structure TLSConfig where
  ClientAuth : ClientAuthType := ClientAuthType.NoClientCert
  Certificates : List String := []
  ClientCAs : Option (List String) := none
  RootCAs : Option (List String) := none
  ServerName : String := ""
  InsecureSkipVerify : Bool := false
  MinVersion : Nat := 0
  MaxVersion : Nat := 0
deriving DecidableEq, Repr

/-- The fields of `http.Server` that `New` sets. -/
structure Server where
  TLSConfig : TLSConfig
  Addr : String
deriving DecidableEq, Repr

/-- The struct `idp` of `server.go`. -/
structure idp where
  server : Server
  certificate : String
  key : String
deriving DecidableEq, Repr

/-! ## The world `New` runs in -/

/-- The external calls that are recorded, in the order they happen. -/
inductive Event where
  | storeNew (address : String)
  | osOpen (name : String)
  | fileClose (name : String)
  | newSigner (key : File) (cert : File)
  | println (line : String)
  | newJSONRetriever (people : File)
  | newMetadataHandler (config : Configuration)
deriving DecidableEq, Repr

/-- The registrations of `http.DefaultServeMux`, oldest first. -/
abbrev ServeMux := GoMap Handler

/-- Process state read and written by `New`. -/
structure World where
  mux : ServeMux
  trace : List Event
  nextId : Nat
deriving DecidableEq, Repr

/-- Everything `New` depends on that is decided outside `server.go`. -/
structure Env where
  /-- The outcome of `config.LoadConfiguration()`. -/
  LoadConfiguration : Except Error Configuration
  /-- The file system: the content behind a path, or the error of opening it. -/
  fs : String → Except Error String
  /-- Whether `xmlsig.NewSigner(key, cert)` fails. -/
  signerError : File → File → Option Error
  /-- Whether `attributes.NewJSONRetriever(people)` fails. -/
  retrieverError : File → Option Error
  /-- Whether `handler.NewMetadataHandler(config)` fails. -/
  metadataError : Configuration → Option Error
  /-- The error `(*http.Server).ListenAndServeTLS(certFile, keyFile)` ends with. -/
  ListenAndServeTLS : Server → String → String → Error

/-- How a call of `New` ends: with `(idp, nil)`, with `(nil, err)`, or in a
panic raised by `http.Handle`. -/
inductive Result where
  | ok (value : idp)
  | error (err : Error)
  | panic (msg : String)
deriving DecidableEq, Repr

/-- Append one event to the trace. -/
def World.record (w : World) (e : Event) : World :=
  { w with trace := w.trace ++ [e] }

/-! ## Calls into other packages -/

/-- The call `store.New(address)`: it cannot fail and yields a fresh store. -/
def storeNew (w : World) (address : String) : World × Store :=
  ({ w.record (Event.storeNew address) with nextId := w.nextId + 1 },
   { id := w.nextId, address := address })

/-- The call `os.Open(name)`. -/
def osOpen (env : Env) (w : World) (name : String) : World × Except Error File :=
  (w.record (Event.osOpen name),
   match env.fs name with
   | Except.ok c => Except.ok { name := name, content := c }
   | Except.error e => Except.error e)

/-- The call `f.Close()`. -/
def fileClose (w : World) (f : File) : World :=
  w.record (Event.fileClose f.name)

/-- The call `xmlsig.NewSigner(key, cert)`: on success a fresh signer holding
the two readers it was given. -/
def NewSigner (env : Env) (w : World) (key cert : File) : World × Except Error Signer :=
  let w1 := w.record (Event.newSigner key cert)
  match env.signerError key cert with
  | some e => (w1, Except.error e)
  | none => ({ w1 with nextId := w1.nextId + 1 }, Except.ok { id := w1.nextId, key := key, cert := cert })

/-- The call `log.Println(line)`. -/
def Println (w : World) (line : String) : World :=
  w.record (Event.println line)

/-- The call `attributes.NewJSONRetriever(people)`. -/
def NewJSONRetriever (env : Env) (w : World) (people : File) : World × Except Error Retriever :=
  (w.record (Event.newJSONRetriever people),
   match env.retrieverError people with
   | some e => Except.error e
   | none => Except.ok { source := people })

/-- The call `handler.NewMetadataHandler(config)`. -/
def NewMetadataHandler (env : Env) (w : World) (config : Configuration) :
    World × Except Error Handler :=
  (w.record (Event.newMetadataHandler config),
   match env.metadataError config with
   | some e => Except.error e
   | none => Except.ok (Handler.metadata config))

/-- The call `http.Handle(pattern, handler)` on the default serve mux, as
`(*ServeMux).Handle` of the standard library behaves: it panics on the empty
pattern and on a pattern that is already registered, and registers otherwise.
The result is the panic message or the new world. -/
def Handle (w : World) (pattern : String) (handler : Handler) : Except String World :=
  if pattern = "" then Except.error ("http: invalid pattern " ++ pattern)
  else if (GoMap.get w.mux pattern).isSome then
    Except.error ("http: multiple registrations for " ++ pattern)
  else Except.ok { w with mux := w.mux ++ [(pattern, handler)] }

/-! ## `server.go` -/

/-- Binding URI of the HTTP-Artifact binding (line 58). -/
def bindingArtifact : String := "urn:oasis:names:tc:SAML:2.0:bindings:HTTP-Artifact"

/-- Binding URI of the HTTP-POST binding (line 59). -/
def bindingPOST : String := "urn:oasis:names:tc:SAML:2.0:bindings:HTTP-POST"

/-- Method `Start` (lines 27-29). -/
def Start (env : Env) (i : idp) : Error :=
  env.ListenAndServeTLS i.server i.certificate i.key

/-- Function `getSigner` (lines 83-94).  The deferred `cert.Close()` runs on
every return after line 88; the key file is never closed. -/
def getSigner (env : Env) (w : World) (certPath keyPath : String) :
    World × Except Error Signer :=
  match osOpen env w certPath with
  | (w1, Except.error e) => (w1, Except.error e)
  | (w1, Except.ok cert) =>
    match osOpen env w1 keyPath with
    | (w2, Except.error e) => (fileClose w2 cert, Except.error e)
    | (w2, Except.ok key) =>
      match NewSigner env w2 key cert with
      | (w3, r) => (fileClose w3 cert, r)

/-- Function `New` (lines 31-81).  The deferred `people.Close()` runs on every
exit after line 51, a panic included.  Despite the comment on line 79, `New`
starts nothing: it returns the `idp` value, and only `Start` listens. -/
def New (env : Env) (w : World) : World × Result :=
  match env.LoadConfiguration with
  | Except.error e => (w, Result.error e)
  | Except.ok config =>
    match storeNew w config.Redis.Address with
    | (w1, store) =>
    match getSigner env w1 config.Certificate config.Key with
    | (w2, Except.error e) => (w2, Result.error e)
    | (w2, Except.ok signer) =>
    match osOpen env (Println w2 config.AttributeProviders.JsonStore.File)
        config.AttributeProviders.JsonStore.File with
    | (w3, Except.error e) => (w3, Result.error e)
    | (w3, Except.ok people) =>
    match NewJSONRetriever env w3 people with
    | (w4, Except.error e) => (fileClose w4 people, Result.error e)
    | (w4, Except.ok retriever) =>
    let requestParser := RequestParser.redirect
    let marshallers : GoMap ResponseMarshaller := []
    let marshallers := marshallers.set bindingArtifact (ResponseMarshaller.artifact store)
    let marshallers := marshallers.set bindingPOST (ResponseMarshaller.post signer)
    let generator : Generator := { entityId := config.EntityId }
    let responder : authnresponder :=
      { retriever := retriever, generator := generator, marshallers := marshallers }
    let passwordAuth := Authenticator.password (Callback.completeAuth responder) store
      config.Authenticator.Fallback.Form
    let pkiAuth := Authenticator.pki (Callback.completeAuth responder) store passwordAuth
    let authHandler := Handler.authentication requestParser pkiAuth
    match Handle w4 config.Services.Authentication authHandler with
    | Except.error m => (fileClose w4 people, Result.panic m)
    | Except.ok w5 =>
    let queryHandler := Handler.query signer retriever config.EntityId
    let artHandler := Handler.artifact store signer config.EntityId
    match Handle w5 config.Services.ArtifactResolution artHandler with
    | Except.error m => (fileClose w5 people, Result.panic m)
    | Except.ok w6 =>
    match Handle w6 config.Services.AttributeQuery queryHandler with
    | Except.error m => (fileClose w6 people, Result.panic m)
    | Except.ok w7 =>
    match NewMetadataHandler env w7 config with
    | (w8, Except.error e) => (fileClose w8 people, Result.error e)
    | (w8, Except.ok metadataHandler) =>
    match Handle w8 config.Services.Metadata metadataHandler with
    | Except.error m => (fileClose w8 people, Result.panic m)
    | Except.ok w9 =>
    let form := config.Authenticator.Fallback.Form
    match Handle w9 form.Context
        (Handler.stripPrefix form.Context (Handler.fileServer form.Directory)) with
    | Except.error m => (fileClose w9 people, Result.panic m)
    | Except.ok w10 =>
    match Handle w10 form.Action (Handler.authenticator passwordAuth) with
    | Except.error m => (fileClose w10 people, Result.panic m)
    | Except.ok w11 =>
    let tlsConfig : TLSConfig := { ClientAuth := ClientAuthType.RequestClientCert }
    (fileClose w11 people,
     Result.ok { server := { TLSConfig := tlsConfig, Addr := config.Address },
                 certificate := config.Certificate, key := config.Key })

/-! ## A concrete deployment, used to run the definitions -/

/-- A complete configuration with pairwise distinct endpoint patterns. -/
def sampleConfig : Configuration :=
  { Address := ":9443", Certificate := "idp.crt", Key := "idp.key",
    EntityId := "https://idp.example.com/",
    Redis := { Address := "localhost:6379" },
    AttributeProviders := { JsonStore := { File := "users.json" } },
    Authenticator := { Fallback := { Form :=
      { Context := "/ui/", Action := "/ui/login", Directory := "ui" } } },
    Services := { Authentication := "/SAML2/Redirect/SSO",
                  ArtifactResolution := "/SAML2/SOAP/ArtifactResolution",
                  AttributeQuery := "/SAML2/SOAP/AttributeQuery",
                  Metadata := "/metadata" } }

/-- An environment in which every file exists and no constructor fails. -/
def sampleEnv : Env :=
  { LoadConfiguration := Except.ok sampleConfig,
    fs := fun name => Except.ok ("content of " ++ name),
    signerError := fun _ _ => none,
    retrieverError := fun _ => none,
    metadataError := fun _ => none,
    ListenAndServeTLS := fun _ _ _ => { msg := "http: Server closed" } }

/-- A fresh process: nothing registered, nothing called, nothing allocated. -/
def freshWorld : World := { mux := [], trace := [], nextId := 0 }

/-- The clash configuration: both SOAP endpoints are given the same pattern. -/
def clashConfig : Configuration :=
  { sampleConfig with
    Services := { Authentication := "/SAML2/Redirect/SSO",
                  ArtifactResolution := "/SAML2/SOAP",
                  AttributeQuery := "/SAML2/SOAP",
                  Metadata := "/metadata" } }

/-- The sample environment, loading the clash configuration. -/
def clashEnv : Env :=
  { sampleEnv with LoadConfiguration := Except.ok clashConfig }

/-- The sample environment, except that building the metadata handler fails. -/
def metadataFailsEnv : Env :=
  { sampleEnv with metadataError := fun _ => some { msg := "metadata: bad certificate" } }

/-- The `idp` value built from the sample configuration. -/
def sampleIdp : idp :=
  { server := { TLSConfig := { ClientAuth := ClientAuthType.RequestClientCert },
                Addr := ":9443" },
    certificate := "idp.crt", key := "idp.key" }

/-! ## Observations on the built components -/

/-- The two variants of authenticator link. -/
inductive LinkKind where
  | PKI
  | Password
deriving DecidableEq, Repr

/-- Which variant a link is. -/
def Authenticator.kind : Authenticator → LinkKind
  | Authenticator.password _ _ _ => LinkKind.Password
  | Authenticator.pki _ _ _ => LinkKind.PKI

/-- The link a link delegates to; the Password constructor takes none. -/
def Authenticator.next : Authenticator → Option Authenticator
  | Authenticator.password _ _ _ => none
  | Authenticator.pki _ _ next => some next

/-- The completion callback a link was constructed with. -/
def Authenticator.callback : Authenticator → Callback
  | Authenticator.password cb _ _ => cb
  | Authenticator.pki cb _ _ => cb

/-- The store a link was constructed with. -/
def Authenticator.store : Authenticator → Store
  | Authenticator.password _ s _ => s
  | Authenticator.pki _ s _ => s

/-- The variants of a chain in the order its links are tried. -/
def Authenticator.links : Authenticator → List LinkKind
  | Authenticator.password _ _ _ => [LinkKind.Password]
  | Authenticator.pki _ _ next => LinkKind.PKI :: next.links

/-- The responder behind a callback. -/
def Callback.responder : Callback → authnresponder
  | Callback.completeAuth r => r

/-- The signer a marshaller was constructed with, if its constructor takes one. -/
def ResponseMarshaller.signer? : ResponseMarshaller → Option Signer
  | ResponseMarshaller.artifact _ => none
  | ResponseMarshaller.post s => some s

/-- The store a marshaller was constructed with, if its constructor takes one. -/
def ResponseMarshaller.store? : ResponseMarshaller → Option Store
  | ResponseMarshaller.artifact s => some s
  | ResponseMarshaller.post _ => none

/-- The addresses of the `store.New` calls in a trace. -/
def storeNewCalls (t : List Event) : List String :=
  t.filterMap (fun e => match e with
    | Event.storeNew a => some a
    | _ => none)

/-- The `(key, cert)` arguments of the `xmlsig.NewSigner` calls in a trace. -/
def newSignerCalls (t : List Event) : List (File × File) :=
  t.filterMap (fun e => match e with
    | Event.newSigner k c => some (k, c)
    | _ => none)

/-- The response generators reachable from a chain: one per link, through the
link's completion callback. -/
def Authenticator.generators : Authenticator → List Generator
  | Authenticator.password cb _ _ => [cb.responder.generator]
  | Authenticator.pki cb _ next => cb.responder.generator :: next.generators

/-- The issuer identities a registered handler was constructed with: the entity
ID argument of the query and artifact handlers, and the entity ID of every
response generator behind an authenticator chain. -/
def Handler.issuers : Handler → List String
  | Handler.authentication _ auth => auth.generators.map Generator.entityId
  | Handler.authenticator auth => auth.generators.map Generator.entityId
  | Handler.query _ _ entityId => [entityId]
  | Handler.artifact _ _ entityId => [entityId]
  | Handler.metadata _ => []
  | Handler.fileServer _ => []
  | Handler.stripPrefix _ _ => []

/-! ## The client-certificate policy of the TLS server -/

/-- Position of a `tls.ClientAuthType` constant in its `iota` declaration. -/
def ClientAuthType.toNat : ClientAuthType → Nat
  | ClientAuthType.NoClientCert => 0
  | ClientAuthType.RequestClientCert => 1
  | ClientAuthType.RequireAnyClientCert => 2
  | ClientAuthType.VerifyClientCertIfGiven => 3
  | ClientAuthType.RequireAndVerifyClientCert => 4

/-- Function `requiresClientCert` of package `crypto/tls`. -/
def requiresClientCert : ClientAuthType → Bool
  | ClientAuthType.RequireAnyClientCert => true
  | ClientAuthType.RequireAndVerifyClientCert => true
  | _ => false

/-- What the client sent in its Certificate message, reduced to whether the
chain verifies against the server's `ClientCAs`. -/
structure ClientCertificate where
  chainVerifies : Bool
deriving DecidableEq, Repr

/-- The client-certificate policy of the `crypto/tls` server handshake as the
documentation of `ClientAuthType` gives it: no certificate is refused only when
one is required, and a certificate is verified only from
`VerifyClientCertIfGiven` upwards. -/
def acceptsClient (cfg : TLSConfig) (cert : Option ClientCertificate) : Bool :=
  match cert with
  | none => !requiresClientCert cfg.ClientAuth
  | some c =>
    if ClientAuthType.VerifyClientCertIfGiven.toNat ≤ cfg.ClientAuth.toNat then c.chainVerifies
    else true

/-! ## The failure order in the words of the specification -/

/-- The fallible steps of `New`, in the order they are tried. -/
inductive Step where
  | loadConfiguration
  | buildSigner
  | openAttributeFile
  | buildRetriever
  | buildMetadataHandler
deriving DecidableEq, Repr

/-- Why building the signer from two paths fails, if it does: the certificate
file cannot be opened, else the key file cannot be opened, else the signer
constructor rejects the pair. -/
def signerFailure (env : Env) (certPath keyPath : String) : Option Error :=
  match env.fs certPath with
  | Except.error e => some e
  | Except.ok certC =>
    match env.fs keyPath with
    | Except.error e => some e
    | Except.ok keyC =>
      env.signerError { name := keyPath, content := keyC } { name := certPath, content := certC }

/-- The first of the five steps that fails in an environment, with its error;
`none` when all five succeed.  This is the failure order as the specification
words it, to be compared with `New`. -/
def firstFailure (env : Env) : Option (Step × Error) :=
  match env.LoadConfiguration with
  | Except.error e => some (Step.loadConfiguration, e)
  | Except.ok c =>
    match signerFailure env c.Certificate c.Key with
    | some e => some (Step.buildSigner, e)
    | none =>
      match env.fs c.AttributeProviders.JsonStore.File with
      | Except.error e => some (Step.openAttributeFile, e)
      | Except.ok peopleC =>
        match env.retrieverError
            { name := c.AttributeProviders.JsonStore.File, content := peopleC } with
        | some e => some (Step.buildRetriever, e)
        | none =>
          match env.metadataError c with
          | some e => some (Step.buildMetadataHandler, e)
          | none => none


/-! ## Lemmas on the map and on the steps -/

/-- Reading a key from two concatenated entry lists: the first list wins. -/
theorem GoMap.get_append {V : Type} (m n : GoMap V) (k : String) :
    GoMap.get (m ++ n) k = (GoMap.get m k).orElse (fun _ => GoMap.get n k) := by
  induction m with
  | nil => simp [GoMap.get]
  | cons e rest ih =>
    obtain ⟨a, b⟩ := e
    show GoMap.get ((a, b) :: (rest ++ n)) k = _
    simp only [GoMap.get]
    by_cases hak : a = k
    · simp [hak]
    · simp [hak, ih]

/-- A registration returns exactly when the pattern is non-empty and not yet
registered, and then it appends the entry. -/
theorem Handle_ok_iff (w w' : World) (p : String) (h : Handler) :
    Handle w p h = Except.ok w' ↔
      p ≠ "" ∧ GoMap.get w.mux p = none ∧ w' = { w with mux := w.mux ++ [(p, h)] } := by
  unfold Handle
  by_cases h1 : p = ""
  · simp [h1]
  · cases h2 : GoMap.get w.mux p with
    | none => simp [h1, h2, eq_comm]
    | some x => simp [h1, h2]

/-- After a registration that returned, the pattern maps to the new handler,
earlier entries are still found, and nothing but the mux has changed. -/
theorem Handle_ok_get (w w' : World) (p : String) (h : Handler)
    (hh : Handle w p h = Except.ok w') :
    GoMap.get w'.mux p = some h ∧ w'.trace = w.trace ∧ w'.nextId = w.nextId ∧
    w'.mux = w.mux ++ [(p, h)] ∧
    ∀ q x, GoMap.get w.mux q = some x → GoMap.get w'.mux q = some x := by
  obtain ⟨_, h2, rfl⟩ := (Handle_ok_iff w w' p h).1 hh
  refine ⟨?_, rfl, rfl, rfl, ?_⟩
  · simp [GoMap.get_append, h2, GoMap.get]
  · intro q x hq
    simp [GoMap.get_append, hq]


/-- What is known when `getSigner` returns a signer. -/
theorem getSigner_ok_inv (env : Env) (w w2 : World) (certPath keyPath : String) (s : Signer)
    (h : getSigner env w certPath keyPath = (w2, Except.ok s)) :
    ∃ certC keyC, env.fs certPath = Except.ok certC ∧ env.fs keyPath = Except.ok keyC ∧
      env.signerError { name := keyPath, content := keyC }
        { name := certPath, content := certC } = none ∧
      s = { id := w.nextId, key := { name := keyPath, content := keyC },
            cert := { name := certPath, content := certC } } ∧
      w2 = { mux := w.mux,
             trace := w.trace ++ [Event.osOpen certPath, Event.osOpen keyPath,
               Event.newSigner { name := keyPath, content := keyC }
                 { name := certPath, content := certC },
               Event.fileClose certPath],
             nextId := w.nextId + 1 } := by
  unfold getSigner osOpen at h
  cases hc : env.fs certPath with
  | error e => simp [hc] at h
  | ok certC =>
    cases hk : env.fs keyPath with
    | error e => simp [hc, hk] at h
    | ok keyC =>
      simp only [hc, hk, NewSigner] at h
      cases hs : env.signerError (File.mk keyPath keyC) (File.mk certPath certC) with
      | some e => simp [hs] at h
      | none =>
        simp only [hs, fileClose, World.record, Prod.mk.injEq, Except.ok.injEq] at h
        refine ⟨certC, keyC, rfl, rfl, hs, h.2.symm, ?_⟩
        rw [← h.1]
        simp

/-- What is known when `New` returns an `idp`: the steps that succeeded, every
component that was built, the final mux, trace and allocation counter. -/
theorem New_ok_inv (env : Env) (w w' : World) (i : idp)
    (h : New env w = (w', Result.ok i)) :
    ∃ (c : Configuration) (store : Store) (signer : Signer) (retriever : Retriever)
      (responder : authnresponder) (passwordAuth pkiAuth : Authenticator)
      (certC keyC peopleC : String) (w2 : World),
      env.LoadConfiguration = Except.ok c ∧
      env.fs c.Certificate = Except.ok certC ∧
      env.fs c.Key = Except.ok keyC ∧
      env.fs c.AttributeProviders.JsonStore.File = Except.ok peopleC ∧
      store = { id := w.nextId, address := c.Redis.Address } ∧
      signer = { id := w.nextId + 1, key := { name := c.Key, content := keyC },
                 cert := { name := c.Certificate, content := certC } } ∧
      getSigner env (storeNew w c.Redis.Address).1 c.Certificate c.Key
        = (w2, Except.ok signer) ∧
      retriever = { source := { name := c.AttributeProviders.JsonStore.File,
                                content := peopleC } } ∧
      responder = { retriever := retriever, generator := { entityId := c.EntityId },
                    marshallers := [(bindingPOST, ResponseMarshaller.post signer),
                                    (bindingArtifact, ResponseMarshaller.artifact store)] } ∧
      passwordAuth = Authenticator.password (Callback.completeAuth responder) store
        c.Authenticator.Fallback.Form ∧
      pkiAuth = Authenticator.pki (Callback.completeAuth responder) store passwordAuth ∧
      w'.mux = w.mux ++
        [(c.Services.Authentication, Handler.authentication RequestParser.redirect pkiAuth),
         (c.Services.ArtifactResolution, Handler.artifact store signer c.EntityId),
         (c.Services.AttributeQuery, Handler.query signer retriever c.EntityId),
         (c.Services.Metadata, Handler.metadata c),
         (c.Authenticator.Fallback.Form.Context,
           Handler.stripPrefix c.Authenticator.Fallback.Form.Context
             (Handler.fileServer c.Authenticator.Fallback.Form.Directory)),
         (c.Authenticator.Fallback.Form.Action, Handler.authenticator passwordAuth)] ∧
      GoMap.get w'.mux c.Services.Authentication
        = some (Handler.authentication RequestParser.redirect pkiAuth) ∧
      GoMap.get w'.mux c.Services.ArtifactResolution
        = some (Handler.artifact store signer c.EntityId) ∧
      GoMap.get w'.mux c.Services.AttributeQuery
        = some (Handler.query signer retriever c.EntityId) ∧
      GoMap.get w'.mux c.Services.Metadata = some (Handler.metadata c) ∧
      GoMap.get w'.mux c.Authenticator.Fallback.Form.Action
        = some (Handler.authenticator passwordAuth) ∧
      w'.trace = w.trace ++
        [Event.storeNew c.Redis.Address, Event.osOpen c.Certificate, Event.osOpen c.Key,
         Event.newSigner { name := c.Key, content := keyC }
           { name := c.Certificate, content := certC },
         Event.fileClose c.Certificate,
         Event.println c.AttributeProviders.JsonStore.File,
         Event.osOpen c.AttributeProviders.JsonStore.File,
         Event.newJSONRetriever { name := c.AttributeProviders.JsonStore.File,
                                  content := peopleC },
         Event.newMetadataHandler c,
         Event.fileClose c.AttributeProviders.JsonStore.File] ∧
      w'.nextId = w.nextId + 2 ∧
      i = { server := { TLSConfig := { ClientAuth := ClientAuthType.RequestClientCert },
                        Addr := c.Address },
            certificate := c.Certificate, key := c.Key } := by
  unfold New at h
  cases hc : env.LoadConfiguration with
  | error e => simp [hc] at h
  | ok c =>
    simp only [hc] at h
    rcases hs : getSigner env (storeNew w c.Redis.Address).1 c.Certificate c.Key
      with ⟨w2, _ | signer⟩
    · simp [hs] at h
    simp only [hs] at h
    obtain ⟨certC, keyC, hfc, hfk, -, hsig, hw2⟩ := getSigner_ok_inv _ _ _ _ _ _ hs
    unfold osOpen at h
    cases hp : env.fs c.AttributeProviders.JsonStore.File with
    | error e => simp [hp] at h
    | ok peopleC =>
    simp only [hp] at h
    unfold NewJSONRetriever at h
    cases hr : env.retrieverError (File.mk c.AttributeProviders.JsonStore.File peopleC) with
    | some e => simp [hr] at h
    | none =>
    simp only [hr] at h
    split at h
    · simp at h
    rename_i w5 h5
    split at h
    · simp at h
    rename_i w6 h6
    split at h
    · simp at h
    rename_i w7 h7
    unfold NewMetadataHandler at h
    cases hm : env.metadataError c with
    | some e => simp [hm] at h
    | none =>
    simp only [hm] at h
    split at h
    · simp at h
    rename_i w9 h9
    split at h
    · simp at h
    rename_i w10 h10
    split at h
    · simp at h
    rename_i w11 h11
    simp only [Prod.mk.injEq, Result.ok.injEq] at h
    obtain ⟨hw', hi⟩ := h
    obtain ⟨g5, t5, n5, m5, k5⟩ := Handle_ok_get _ _ _ _ h5
    obtain ⟨g6, t6, n6, m6, k6⟩ := Handle_ok_get _ _ _ _ h6
    obtain ⟨g7, t7, n7, m7, k7⟩ := Handle_ok_get _ _ _ _ h7
    obtain ⟨g9, t9, n9, m9, k9⟩ := Handle_ok_get _ _ _ _ h9
    obtain ⟨g10, t10, n10, m10, k10⟩ := Handle_ok_get _ _ _ _ h10
    obtain ⟨g11, t11, n11, m11, k11⟩ := Handle_ok_get _ _ _ _ h11
    have hset : GoMap.set (GoMap.set ([] : GoMap ResponseMarshaller) bindingArtifact
          (ResponseMarshaller.artifact (storeNew w c.Redis.Address).2)) bindingPOST
          (ResponseMarshaller.post signer)
        = [(bindingPOST, ResponseMarshaller.post signer),
           (bindingArtifact, ResponseMarshaller.artifact (storeNew w c.Redis.Address).2)] := by
      simp [GoMap.set, bindingArtifact, bindingPOST]
    rw [hset] at h5 g5 m5 h11 g11 m11
    refine ⟨c, (storeNew w c.Redis.Address).2, signer, _, _, _, _, certC, keyC, peopleC, w2,
      rfl, hfc, hfk, hp, rfl, ?_, hs, rfl, rfl, rfl, rfl, ?_, ?_, ?_, ?_, ?_, ?_, ?_, ?_,
      hi.symm⟩
    · simpa [storeNew, World.record] using hsig
    · subst hw'
      simp [fileClose, World.record, m11, m10, m9, m7, m6, m5, Println, hw2, storeNew]
    · subst hw'
      exact k11 _ _ (k10 _ _ (k9 _ _ (k7 _ _ (k6 _ _ g5))))
    · subst hw'
      exact k11 _ _ (k10 _ _ (k9 _ _ (k7 _ _ g6)))
    · subst hw'
      exact k11 _ _ (k10 _ _ (k9 _ _ g7))
    · subst hw'
      exact k11 _ _ (k10 _ _ g9)
    · subst hw'
      exact g11
    · subst hw'
      simp [fileClose, World.record, t11, t10, t9, t7, t6, t5, Println, hw2, storeNew]
    · subst hw'
      simp [fileClose, World.record, n11, n10, n9, n7, n6, n5, Println, hw2, storeNew]

/-- When `getSigner` returns an error it is the one `signerFailure` names, and
the mux is untouched. -/
theorem getSigner_error_inv (env : Env) (w w2 : World) (certPath keyPath : String) (e : Error)
    (h : getSigner env w certPath keyPath = (w2, Except.error e)) :
    signerFailure env certPath keyPath = some e ∧ w2.mux = w.mux := by
  unfold getSigner osOpen at h
  unfold signerFailure
  cases hc : env.fs certPath with
  | error e1 =>
    simp only [hc, Prod.mk.injEq, Except.error.injEq] at h
    obtain ⟨rfl, rfl⟩ := h
    simp [World.record]
  | ok certC =>
    cases hk : env.fs keyPath with
    | error e1 =>
      simp only [hc, hk, Prod.mk.injEq, Except.error.injEq] at h
      obtain ⟨rfl, rfl⟩ := h
      simp [World.record, fileClose]
    | ok keyC =>
      simp only [hc, hk, NewSigner] at h
      cases hs : env.signerError (File.mk keyPath keyC) (File.mk certPath certC) with
      | none => simp [hs] at h
      | some e1 =>
        simp only [hs, Prod.mk.injEq, Except.error.injEq] at h
        obtain ⟨rfl, rfl⟩ := h
        simp [World.record, fileClose, hs]

/-- When `New` returns an `idp`, none of the five steps fails. -/
theorem New_ok_firstFailure (env : Env) (w w' : World) (i : idp)
    (h : New env w = (w', Result.ok i)) : firstFailure env = none := by
  unfold New at h
  cases hc : env.LoadConfiguration with
  | error e => simp [hc] at h
  | ok c =>
    simp only [hc] at h
    rcases hs : getSigner env (storeNew w c.Redis.Address).1 c.Certificate c.Key
      with ⟨w2, _ | signer⟩
    · simp [hs] at h
    simp only [hs] at h
    obtain ⟨certC, keyC, hfc, hfk, hse, -, -⟩ := getSigner_ok_inv _ _ _ _ _ _ hs
    unfold osOpen at h
    cases hp : env.fs c.AttributeProviders.JsonStore.File with
    | error e => simp [hp] at h
    | ok peopleC =>
    simp only [hp] at h
    unfold NewJSONRetriever at h
    cases hr : env.retrieverError (File.mk c.AttributeProviders.JsonStore.File peopleC) with
    | some e => simp [hr] at h
    | none =>
    simp only [hr] at h
    split at h
    · simp at h
    split at h
    · simp at h
    split at h
    · simp at h
    unfold NewMetadataHandler at h
    cases hm : env.metadataError c with
    | some e => simp [hm] at h
    | none => simp [firstFailure, signerFailure, hc, hfc, hfk, hse, hp, hr, hm]

/-- When `New` returns an error, it is the error of the first failing step, and
the mux is either untouched or extended by the first three handlers. -/
theorem New_error_inv (env : Env) (w w' : World) (e : Error)
    (h : New env w = (w', Result.error e)) :
    ∃ s : Step, firstFailure env = some (s, e) ∧
      (s ≠ Step.buildMetadataHandler → w'.mux = w.mux) ∧
      (s = Step.buildMetadataHandler →
        ∃ (c : Configuration) (parser : RequestParser) (head : Authenticator)
          (store : Store) (signer : Signer) (retriever : Retriever),
          env.LoadConfiguration = Except.ok c ∧
          w'.mux = w.mux ++
            [(c.Services.Authentication, Handler.authentication parser head),
             (c.Services.ArtifactResolution, Handler.artifact store signer c.EntityId),
             (c.Services.AttributeQuery, Handler.query signer retriever c.EntityId)]) := by
  unfold New at h
  cases hc : env.LoadConfiguration with
  | error e0 =>
    simp only [hc, Prod.mk.injEq, Result.error.injEq] at h
    obtain ⟨rfl, rfl⟩ := h
    exact ⟨Step.loadConfiguration, by simp [firstFailure, hc], fun _ => rfl, by simp⟩
  | ok c =>
    simp only [hc] at h
    rcases hs : getSigner env (storeNew w c.Redis.Address).1 c.Certificate c.Key
      with ⟨w2, e0 | signer⟩
    · simp only [hs, Prod.mk.injEq, Result.error.injEq] at h
      obtain ⟨rfl, rfl⟩ := h
      obtain ⟨hsf, hmux⟩ := getSigner_error_inv _ _ _ _ _ _ hs
      refine ⟨Step.buildSigner, by simp [firstFailure, hc, hsf], fun _ => ?_, by simp⟩
      rw [hmux]
      simp [storeNew, World.record]
    simp only [hs] at h
    obtain ⟨certC, keyC, hfc, hfk, hse, -, hw2⟩ := getSigner_ok_inv _ _ _ _ _ _ hs
    have hmux2 : w2.mux = w.mux := by rw [hw2]; simp [storeNew, World.record]
    unfold osOpen at h
    cases hp : env.fs c.AttributeProviders.JsonStore.File with
    | error e0 =>
      simp only [hp, Prod.mk.injEq, Result.error.injEq] at h
      obtain ⟨rfl, rfl⟩ := h
      refine ⟨Step.openAttributeFile,
        by simp [firstFailure, signerFailure, hc, hfc, hfk, hse, hp], fun _ => ?_, by simp⟩
      simp [Println, World.record, hmux2]
    | ok peopleC =>
    simp only [hp] at h
    unfold NewJSONRetriever at h
    cases hr : env.retrieverError (File.mk c.AttributeProviders.JsonStore.File peopleC) with
    | some e0 =>
      simp only [hr, Prod.mk.injEq, Result.error.injEq] at h
      obtain ⟨rfl, rfl⟩ := h
      refine ⟨Step.buildRetriever,
        by simp [firstFailure, signerFailure, hc, hfc, hfk, hse, hp, hr], fun _ => ?_, by simp⟩
      simp [Println, World.record, fileClose, hmux2]
    | none =>
    simp only [hr] at h
    split at h
    · simp at h
    rename_i w5 h5
    split at h
    · simp at h
    rename_i w6 h6
    split at h
    · simp at h
    rename_i w7 h7
    unfold NewMetadataHandler at h
    cases hm : env.metadataError c with
    | none =>
      simp only [hm] at h
      split at h
      · simp at h
      split at h
      · simp at h
      split at h
      · simp at h
      simp at h
    | some e0 =>
      simp only [hm, Prod.mk.injEq, Result.error.injEq] at h
      obtain ⟨rfl, rfl⟩ := h
      obtain ⟨-, -, -, m5, -⟩ := Handle_ok_get _ _ _ _ h5
      obtain ⟨-, -, -, m6, -⟩ := Handle_ok_get _ _ _ _ h6
      obtain ⟨-, -, -, m7, -⟩ := Handle_ok_get _ _ _ _ h7
      refine ⟨Step.buildMetadataHandler,
        by simp [firstFailure, signerFailure, hc, hfc, hfk, hse, hp, hr, hm], by simp,
        fun _ => ?_⟩
      refine ⟨c, RequestParser.redirect, ?_, (storeNew w c.Redis.Address).2, signer,
        Retriever.mk (File.mk c.AttributeProviders.JsonStore.File peopleC), rfl, ?_⟩
      swap
      simp only [fileClose, World.record, m7, m6, m5, Println, hmux2, List.append_assoc,
        List.singleton_append, List.cons_append, List.nil_append]
      exact rfl

/-- However a run of `New` ends, the registrations it added are an initial
segment of the six it performs in order. -/
theorem New_mux_cases (env : Env) (w : World) :
    (New env w).1.mux = w.mux ∨
    ∃ (c : Configuration) (store : Store) (signer : Signer) (retriever : Retriever)
      (responder : authnresponder) (passwordAuth pkiAuth : Authenticator) (k : Nat),
      env.LoadConfiguration = Except.ok c ∧
      responder.generator = { entityId := c.EntityId } ∧
      passwordAuth = Authenticator.password (Callback.completeAuth responder) store
        c.Authenticator.Fallback.Form ∧
      pkiAuth = Authenticator.pki (Callback.completeAuth responder) store passwordAuth ∧
      (New env w).1.mux = w.mux ++ List.take k
        [(c.Services.Authentication, Handler.authentication RequestParser.redirect pkiAuth),
         (c.Services.ArtifactResolution, Handler.artifact store signer c.EntityId),
         (c.Services.AttributeQuery, Handler.query signer retriever c.EntityId),
         (c.Services.Metadata, Handler.metadata c),
         (c.Authenticator.Fallback.Form.Context,
           Handler.stripPrefix c.Authenticator.Fallback.Form.Context
             (Handler.fileServer c.Authenticator.Fallback.Form.Directory)),
         (c.Authenticator.Fallback.Form.Action, Handler.authenticator passwordAuth)] := by
  unfold New
  cases hc : env.LoadConfiguration with
  | error e => exact Or.inl rfl
  | ok c =>
    simp only
    rcases hs : getSigner env (storeNew w c.Redis.Address).1 c.Certificate c.Key
      with ⟨w2, e0 | signer⟩
    · obtain ⟨-, hmux⟩ := getSigner_error_inv _ _ _ _ _ _ hs
      left
      simp [hmux, storeNew, World.record]
    obtain ⟨certC, keyC, -, -, -, -, hw2⟩ := getSigner_ok_inv _ _ _ _ _ _ hs
    have hmux2 : w2.mux = w.mux := by rw [hw2]; simp [storeNew, World.record]
    simp only
    unfold osOpen
    cases hp : env.fs c.AttributeProviders.JsonStore.File with
    | error e0 =>
      left
      simp [Println, World.record, hmux2]
    | ok peopleC =>
    simp only
    unfold NewJSONRetriever
    cases hr : env.retrieverError (File.mk c.AttributeProviders.JsonStore.File peopleC) with
    | some e0 =>
      left
      simp [Println, World.record, fileClose, hmux2]
    | none =>
    simp only
    have wit : ∀ (m : ServeMux) (k : Nat),
        m = w.mux ++ List.take k
          [(c.Services.Authentication, Handler.authentication RequestParser.redirect
              (Authenticator.pki
                (Callback.completeAuth
                  { retriever := Retriever.mk (File.mk c.AttributeProviders.JsonStore.File peopleC),
                    generator := { entityId := c.EntityId },
                    marshallers := GoMap.set (GoMap.set [] bindingArtifact
                      (ResponseMarshaller.artifact (storeNew w c.Redis.Address).2)) bindingPOST
                      (ResponseMarshaller.post signer) })
                (storeNew w c.Redis.Address).2
                (Authenticator.password
                  (Callback.completeAuth
                    { retriever := Retriever.mk (File.mk c.AttributeProviders.JsonStore.File peopleC),
                      generator := { entityId := c.EntityId },
                      marshallers := GoMap.set (GoMap.set [] bindingArtifact
                        (ResponseMarshaller.artifact (storeNew w c.Redis.Address).2)) bindingPOST
                        (ResponseMarshaller.post signer) })
                  (storeNew w c.Redis.Address).2 c.Authenticator.Fallback.Form))),
           (c.Services.ArtifactResolution,
             Handler.artifact (storeNew w c.Redis.Address).2 signer c.EntityId),
           (c.Services.AttributeQuery,
             Handler.query signer
               (Retriever.mk (File.mk c.AttributeProviders.JsonStore.File peopleC)) c.EntityId),
           (c.Services.Metadata, Handler.metadata c),
           (c.Authenticator.Fallback.Form.Context,
             Handler.stripPrefix c.Authenticator.Fallback.Form.Context
               (Handler.fileServer c.Authenticator.Fallback.Form.Directory)),
           (c.Authenticator.Fallback.Form.Action,
             Handler.authenticator
               (Authenticator.password
                  (Callback.completeAuth
                    { retriever := Retriever.mk (File.mk c.AttributeProviders.JsonStore.File peopleC),
                      generator := { entityId := c.EntityId },
                      marshallers := GoMap.set (GoMap.set [] bindingArtifact
                        (ResponseMarshaller.artifact (storeNew w c.Redis.Address).2)) bindingPOST
                        (ResponseMarshaller.post signer) })
                  (storeNew w c.Redis.Address).2 c.Authenticator.Fallback.Form))] →
        m = w.mux ∨
        ∃ (c' : Configuration) (store : Store) (signer : Signer) (retriever : Retriever)
          (responder : authnresponder) (passwordAuth pkiAuth : Authenticator) (k : Nat),
          (Except.ok c : Except Error Configuration) = Except.ok c' ∧
          responder.generator = { entityId := c'.EntityId } ∧
          passwordAuth = Authenticator.password (Callback.completeAuth responder) store
            c'.Authenticator.Fallback.Form ∧
          pkiAuth = Authenticator.pki (Callback.completeAuth responder) store passwordAuth ∧
          m = w.mux ++ List.take k
            [(c'.Services.Authentication,
               Handler.authentication RequestParser.redirect pkiAuth),
             (c'.Services.ArtifactResolution, Handler.artifact store signer c'.EntityId),
             (c'.Services.AttributeQuery, Handler.query signer retriever c'.EntityId),
             (c'.Services.Metadata, Handler.metadata c'),
             (c'.Authenticator.Fallback.Form.Context,
               Handler.stripPrefix c'.Authenticator.Fallback.Form.Context
                 (Handler.fileServer c'.Authenticator.Fallback.Form.Directory)),
             (c'.Authenticator.Fallback.Form.Action, Handler.authenticator passwordAuth)] := by
      intro m k hm
      exact Or.inr ⟨c, _, _, _, _, _, _, k, rfl, rfl, rfl, rfl, hm⟩
    split
    · refine wit _ 0 ?_; simp [Println, World.record, fileClose, hmux2]
    rename_i w5 h5
    obtain ⟨-, -, -, m5, -⟩ := Handle_ok_get _ _ _ _ h5
    split
    · refine wit _ 1 ?_; simp [Println, World.record, fileClose, hmux2, m5]
    rename_i w6 h6
    obtain ⟨-, -, -, m6, -⟩ := Handle_ok_get _ _ _ _ h6
    split
    · refine wit _ 2 ?_; simp [Println, World.record, fileClose, hmux2, m5, m6]
    rename_i w7 h7
    obtain ⟨-, -, -, m7, -⟩ := Handle_ok_get _ _ _ _ h7
    unfold NewMetadataHandler
    cases hm : env.metadataError c with
    | some e0 => refine wit _ 3 ?_; simp [Println, World.record, fileClose, hmux2, m5, m6, m7]
    | none =>
    simp only
    split
    · refine wit _ 3 ?_; simp [Println, World.record, fileClose, hmux2, m5, m6, m7]
    rename_i w9 h9
    obtain ⟨-, -, -, m9, -⟩ := Handle_ok_get _ _ _ _ h9
    split
    · refine wit _ 4 ?_; simp [Println, World.record, fileClose, hmux2, m5, m6, m7, m9]
    rename_i w10 h10
    obtain ⟨-, -, -, m10, -⟩ := Handle_ok_get _ _ _ _ h10
    split
    · refine wit _ 5 ?_; simp [Println, World.record, fileClose, hmux2, m5, m6, m7, m9, m10]
    rename_i w11 h11
    obtain ⟨-, -, -, m11, -⟩ := Handle_ok_get _ _ _ _ h11
    refine wit _ 6 ?_; simp [Println, World.record, fileClose, hmux2, m5, m6, m7, m9, m10, m11]

/-- The `store.New` calls of a concatenated trace. -/
theorem storeNewCalls_append (a b : List Event) :
    storeNewCalls (a ++ b) = storeNewCalls a ++ storeNewCalls b := by
  simp [storeNewCalls, List.filterMap_append]

/-- The `xmlsig.NewSigner` calls of a concatenated trace. -/
theorem newSignerCalls_append (a b : List Event) :
    newSignerCalls (a ++ b) = newSignerCalls a ++ newSignerCalls b := by
  simp [newSignerCalls, List.filterMap_append]

/-! ## The claims -/

/-- C1: whenever `New` succeeds, the handler registered for the authentication
service holds the chain PKI -> Password -> end: its head link is the PKI
authenticator, the next link of that one is the Password authenticator, and the
Password authenticator has no next link. -/
theorem New_chain_pki_then_password (env : Env) (w w' : World) (i : idp)
    (h : New env w = (w', Result.ok i)) :
    ∃ (c : Configuration) (parser : RequestParser) (head pw : Authenticator),
      env.LoadConfiguration = Except.ok c ∧
      GoMap.get w'.mux c.Services.Authentication
        = some (Handler.authentication parser head) ∧
      head.kind = LinkKind.PKI ∧ head.next = some pw ∧
      pw.kind = LinkKind.Password ∧ pw.next = none := by
  obtain ⟨c, store, signer, retriever, responder, passwordAuth, pkiAuth, certC, keyC, peopleC,
    w2, hc, -, -, -, -, -, -, -, -, hpw, hpki, -, hauth, -⟩ := New_ok_inv env w w' i h
  subst hpw hpki
  exact ⟨c, _, _, _, hc, hauth, rfl, rfl, rfl, rfl⟩

/-- Witness of C1 on the sample deployment. -/
theorem New_chain_pki_then_password_witness :
    ∃ (c : Configuration) (parser : RequestParser) (head pw : Authenticator),
      sampleEnv.LoadConfiguration = Except.ok c ∧
      GoMap.get (New sampleEnv freshWorld).1.mux c.Services.Authentication
        = some (Handler.authentication parser head) ∧
      head.kind = LinkKind.PKI ∧ head.next = some pw ∧
      pw.kind = LinkKind.Password ∧ pw.next = none :=
  New_chain_pki_then_password sampleEnv freshWorld (New sampleEnv freshWorld).1 sampleIdp rfl

/-- C2: whenever `New` succeeds, the marshaller registry held by the responder
behind the chain has an entry for a binding URI exactly when the URI is the
HTTP-POST or the HTTP-Artifact binding; the first maps to the POST marshaller
and the second to the Artifact marshaller. -/
theorem New_marshaller_registry (env : Env) (w w' : World) (i : idp)
    (h : New env w = (w', Result.ok i)) :
    ∃ (c : Configuration) (parser : RequestParser) (head : Authenticator)
      (signer : Signer) (store : Store),
      env.LoadConfiguration = Except.ok c ∧
      GoMap.get w'.mux c.Services.Authentication
        = some (Handler.authentication parser head) ∧
      (∀ u : String, (GoMap.get head.callback.responder.marshallers u).isSome = true ↔
        (u = "urn:oasis:names:tc:SAML:2.0:bindings:HTTP-POST" ∨
         u = "urn:oasis:names:tc:SAML:2.0:bindings:HTTP-Artifact")) ∧
      GoMap.get head.callback.responder.marshallers
          "urn:oasis:names:tc:SAML:2.0:bindings:HTTP-POST"
        = some (ResponseMarshaller.post signer) ∧
      GoMap.get head.callback.responder.marshallers
          "urn:oasis:names:tc:SAML:2.0:bindings:HTTP-Artifact"
        = some (ResponseMarshaller.artifact store) ∧
      (∀ link : Authenticator, head.next = some link → link.callback = head.callback) := by
  obtain ⟨c, store, signer, retriever, responder, passwordAuth, pkiAuth, certC, keyC, peopleC,
    w2, hc, -, -, -, -, -, -, -, hresp, hpw, hpki, -, hauth, -⟩ := New_ok_inv env w w' i h
  subst hresp hpw hpki
  refine ⟨c, _, _, signer, store, hc, hauth, ?_, ?_, ?_, ?_⟩
  · intro u
    simp only [Authenticator.callback, Callback.responder, GoMap.get, bindingPOST,
      bindingArtifact]
    by_cases h1 : "urn:oasis:names:tc:SAML:2.0:bindings:HTTP-POST" = u
    · simp [h1, eq_comm]
    · by_cases h2 : "urn:oasis:names:tc:SAML:2.0:bindings:HTTP-Artifact" = u
      · simp [h1, h2, eq_comm]
      · have h1' : ¬ u = "urn:oasis:names:tc:SAML:2.0:bindings:HTTP-POST" := fun e => h1 e.symm
        have h2' : ¬ u = "urn:oasis:names:tc:SAML:2.0:bindings:HTTP-Artifact" :=
          fun e => h2 e.symm
        simp [h1, h2, h1', h2']
  · simp [Authenticator.callback, Callback.responder, GoMap.get, bindingPOST]
  · simp [Authenticator.callback, Callback.responder, GoMap.get, bindingPOST, bindingArtifact]
  · intro link hl
    simp only [Authenticator.next, Option.some.injEq] at hl
    subst hl
    rfl

/-- Witness of C2 on the sample deployment. -/
theorem New_marshaller_registry_witness :
    ∃ (c : Configuration) (parser : RequestParser) (head : Authenticator)
      (signer : Signer) (store : Store),
      sampleEnv.LoadConfiguration = Except.ok c ∧
      GoMap.get (New sampleEnv freshWorld).1.mux c.Services.Authentication
        = some (Handler.authentication parser head) ∧
      (∀ u : String, (GoMap.get head.callback.responder.marshallers u).isSome = true ↔
        (u = "urn:oasis:names:tc:SAML:2.0:bindings:HTTP-POST" ∨
         u = "urn:oasis:names:tc:SAML:2.0:bindings:HTTP-Artifact")) ∧
      GoMap.get head.callback.responder.marshallers
          "urn:oasis:names:tc:SAML:2.0:bindings:HTTP-POST"
        = some (ResponseMarshaller.post signer) ∧
      GoMap.get head.callback.responder.marshallers
          "urn:oasis:names:tc:SAML:2.0:bindings:HTTP-Artifact"
        = some (ResponseMarshaller.artifact store) ∧
      (∀ link : Authenticator, head.next = some link → link.callback = head.callback) :=
  New_marshaller_registry sampleEnv freshWorld (New sampleEnv freshWorld).1 sampleIdp rfl

/-- C3, counterexample: on the sample deployment `New` succeeds and the
marshaller registered for the HTTP-Artifact binding was constructed without a
signer, although the POST marshaller of the same registry was given one. -/
theorem artifact_marshaller_signer_counterexample :
    ∃ (parser : RequestParser) (head : Authenticator) (m p : ResponseMarshaller),
      New sampleEnv freshWorld = ((New sampleEnv freshWorld).1, Result.ok sampleIdp) ∧
      GoMap.get (New sampleEnv freshWorld).1.mux sampleConfig.Services.Authentication
        = some (Handler.authentication parser head) ∧
      GoMap.get head.callback.responder.marshallers
          "urn:oasis:names:tc:SAML:2.0:bindings:HTTP-Artifact" = some m ∧
      GoMap.get head.callback.responder.marshallers
          "urn:oasis:names:tc:SAML:2.0:bindings:HTTP-POST" = some p ∧
      m.signer? = none ∧ p.signer?.isSome = true :=
  ⟨_, _, _, _, rfl, rfl, rfl, rfl, rfl, rfl⟩

/-- C3, amended: whenever `New` succeeds, the Artifact marshaller is constructed
with the store and with no signer, the POST marshaller is constructed with the
signer, and that signer goes, together with that store, to the handler
registered for artifact resolution. -/
theorem New_artifact_marshaller_store_only (env : Env) (w w' : World) (i : idp)
    (h : New env w = (w', Result.ok i)) :
    ∃ (c : Configuration) (parser : RequestParser) (head : Authenticator)
      (m p : ResponseMarshaller) (store : Store) (signer : Signer),
      env.LoadConfiguration = Except.ok c ∧
      GoMap.get w'.mux c.Services.Authentication
        = some (Handler.authentication parser head) ∧
      GoMap.get head.callback.responder.marshallers
          "urn:oasis:names:tc:SAML:2.0:bindings:HTTP-Artifact" = some m ∧
      m.signer? = none ∧ m.store? = some store ∧
      GoMap.get head.callback.responder.marshallers
          "urn:oasis:names:tc:SAML:2.0:bindings:HTTP-POST" = some p ∧
      p.signer? = some signer ∧ p.store? = none ∧
      GoMap.get w'.mux c.Services.ArtifactResolution
        = some (Handler.artifact store signer c.EntityId) := by
  obtain ⟨c, store, signer, retriever, responder, passwordAuth, pkiAuth, certC, keyC, peopleC,
    w2, hc, -, -, -, -, -, -, -, hresp, hpw, hpki, -, hauth, hart, -⟩ :=
    New_ok_inv env w w' i h
  subst hresp hpw hpki
  refine ⟨c, _, _, ResponseMarshaller.artifact store, ResponseMarshaller.post signer, store,
    signer, hc, hauth, ?_, rfl, rfl, ?_, rfl, rfl, hart⟩
  · simp [Authenticator.callback, Callback.responder, GoMap.get, bindingPOST, bindingArtifact]
  · simp [Authenticator.callback, Callback.responder, GoMap.get, bindingPOST]

/-- Witness of the amended C3 on the sample deployment. -/
theorem New_artifact_marshaller_store_only_witness :
    ∃ (c : Configuration) (parser : RequestParser) (head : Authenticator)
      (m p : ResponseMarshaller) (store : Store) (signer : Signer),
      sampleEnv.LoadConfiguration = Except.ok c ∧
      GoMap.get (New sampleEnv freshWorld).1.mux c.Services.Authentication
        = some (Handler.authentication parser head) ∧
      GoMap.get head.callback.responder.marshallers
          "urn:oasis:names:tc:SAML:2.0:bindings:HTTP-Artifact" = some m ∧
      m.signer? = none ∧ m.store? = some store ∧
      GoMap.get head.callback.responder.marshallers
          "urn:oasis:names:tc:SAML:2.0:bindings:HTTP-POST" = some p ∧
      p.signer? = some signer ∧ p.store? = none ∧
      GoMap.get (New sampleEnv freshWorld).1.mux c.Services.ArtifactResolution
        = some (Handler.artifact store signer c.EntityId) :=
  New_artifact_marshaller_store_only sampleEnv freshWorld (New sampleEnv freshWorld).1
    sampleIdp rfl

/-- C4: whenever `New` succeeds it has called `store.New` exactly once, with
`config.Redis.Address`, and the store that call returned is the store of the
Artifact marshaller, of the Password authenticator, of the PKI authenticator and
of the handler registered for artifact resolution. -/
theorem New_single_shared_store (env : Env) (w w' : World) (i : idp)
    (h : New env w = (w', Result.ok i)) :
    ∃ (c : Configuration) (store : Store) (parser : RequestParser)
      (head pw : Authenticator) (signer : Signer) (issuer : String),
      env.LoadConfiguration = Except.ok c ∧
      storeNewCalls w'.trace = storeNewCalls w.trace ++ [c.Redis.Address] ∧
      store = (storeNew w c.Redis.Address).2 ∧
      store.address = c.Redis.Address ∧
      GoMap.get w'.mux c.Services.Authentication
        = some (Handler.authentication parser head) ∧
      GoMap.get head.callback.responder.marshallers
          "urn:oasis:names:tc:SAML:2.0:bindings:HTTP-Artifact"
        = some (ResponseMarshaller.artifact store) ∧
      head.kind = LinkKind.PKI ∧ head.store = store ∧
      head.next = some pw ∧ pw.kind = LinkKind.Password ∧ pw.store = store ∧
      GoMap.get w'.mux c.Services.ArtifactResolution
        = some (Handler.artifact store signer issuer) := by
  obtain ⟨c, store, signer, retriever, responder, passwordAuth, pkiAuth, certC, keyC, peopleC,
    w2, hc, -, -, -, hstore, -, -, -, hresp, hpw, hpki, -, hauth, hart, -, -, -, htrace, -⟩ :=
    New_ok_inv env w w' i h
  subst hresp hpw hpki
  refine ⟨c, store, _, _, _, signer, c.EntityId, hc, ?_, ?_, ?_, hauth, ?_, rfl, rfl, rfl, rfl,
    rfl, hart⟩
  · rw [htrace, storeNewCalls_append]
    simp [storeNewCalls]
  · simp [hstore, storeNew]
  · simp [hstore]
  · simp [Authenticator.callback, Callback.responder, GoMap.get, bindingPOST, bindingArtifact]

/-- Witness of C4 on the sample deployment. -/
theorem New_single_shared_store_witness :
    ∃ (c : Configuration) (store : Store) (parser : RequestParser)
      (head pw : Authenticator) (signer : Signer) (issuer : String),
      sampleEnv.LoadConfiguration = Except.ok c ∧
      storeNewCalls (New sampleEnv freshWorld).1.trace
        = storeNewCalls freshWorld.trace ++ [c.Redis.Address] ∧
      store = (storeNew freshWorld c.Redis.Address).2 ∧
      store.address = c.Redis.Address ∧
      GoMap.get (New sampleEnv freshWorld).1.mux c.Services.Authentication
        = some (Handler.authentication parser head) ∧
      GoMap.get head.callback.responder.marshallers
          "urn:oasis:names:tc:SAML:2.0:bindings:HTTP-Artifact"
        = some (ResponseMarshaller.artifact store) ∧
      head.kind = LinkKind.PKI ∧ head.store = store ∧
      head.next = some pw ∧ pw.kind = LinkKind.Password ∧ pw.store = store ∧
      GoMap.get (New sampleEnv freshWorld).1.mux c.Services.ArtifactResolution
        = some (Handler.artifact store signer issuer) :=
  New_single_shared_store sampleEnv freshWorld (New sampleEnv freshWorld).1 sampleIdp rfl

/-- C5: whenever `New` succeeds it has called `xmlsig.NewSigner` exactly once,
and the signer that call returned is the signer of the attribute query handler,
of the POST marshaller and of the artifact resolution handler. -/
theorem New_single_shared_signer (env : Env) (w w' : World) (i : idp)
    (h : New env w = (w', Result.ok i)) :
    ∃ (c : Configuration) (signer : Signer) (parser : RequestParser)
      (head : Authenticator) (store : Store) (retriever : Retriever) (issuer : String),
      env.LoadConfiguration = Except.ok c ∧
      newSignerCalls w'.trace = newSignerCalls w.trace ++ [(signer.key, signer.cert)] ∧
      GoMap.get w'.mux c.Services.AttributeQuery
        = some (Handler.query signer retriever issuer) ∧
      GoMap.get w'.mux c.Services.Authentication
        = some (Handler.authentication parser head) ∧
      GoMap.get head.callback.responder.marshallers
          "urn:oasis:names:tc:SAML:2.0:bindings:HTTP-POST"
        = some (ResponseMarshaller.post signer) ∧
      GoMap.get w'.mux c.Services.ArtifactResolution
        = some (Handler.artifact store signer issuer) := by
  obtain ⟨c, store, signer, retriever, responder, passwordAuth, pkiAuth, certC, keyC, peopleC,
    w2, hc, -, -, -, -, hsigner, -, -, hresp, hpw, hpki, -, hauth, hart, hquery, -, -,
    htrace, -⟩ := New_ok_inv env w w' i h
  subst hresp hpw hpki
  refine ⟨c, signer, _, _, store, retriever, c.EntityId, hc, ?_, hquery, hauth, ?_, hart⟩
  · rw [htrace, newSignerCalls_append]
    simp [newSignerCalls, hsigner]
  · simp [Authenticator.callback, Callback.responder, GoMap.get, bindingPOST]

/-- Witness of C5 on the sample deployment. -/
theorem New_single_shared_signer_witness :
    ∃ (c : Configuration) (signer : Signer) (parser : RequestParser)
      (head : Authenticator) (store : Store) (retriever : Retriever) (issuer : String),
      sampleEnv.LoadConfiguration = Except.ok c ∧
      newSignerCalls (New sampleEnv freshWorld).1.trace
        = newSignerCalls freshWorld.trace ++ [(signer.key, signer.cert)] ∧
      GoMap.get (New sampleEnv freshWorld).1.mux c.Services.AttributeQuery
        = some (Handler.query signer retriever issuer) ∧
      GoMap.get (New sampleEnv freshWorld).1.mux c.Services.Authentication
        = some (Handler.authentication parser head) ∧
      GoMap.get head.callback.responder.marshallers
          "urn:oasis:names:tc:SAML:2.0:bindings:HTTP-POST"
        = some (ResponseMarshaller.post signer) ∧
      GoMap.get (New sampleEnv freshWorld).1.mux c.Services.ArtifactResolution
        = some (Handler.artifact store signer issuer) :=
  New_single_shared_signer sampleEnv freshWorld (New sampleEnv freshWorld).1 sampleIdp rfl

/-- C6: for every configuration that loads, every handler a run of `New`
registers, however the run ends, carries no issuer identity other than the
configured entity ID `config.EntityId`; and whenever `New` succeeds, the
response generator behind the chain, the attribute query handler and the
artifact resolution handler are all three constructed with that entity ID. -/
theorem New_single_issuer (env : Env) (w : World) :
    (∀ (c : Configuration), env.LoadConfiguration = Except.ok c →
      ∀ entry ∈ (New env w).1.mux.drop w.mux.length,
        ∀ issuer ∈ entry.2.issuers, issuer = c.EntityId) ∧
    (∀ (w' : World) (i : idp), New env w = (w', Result.ok i) →
      ∃ (c : Configuration) (parser : RequestParser) (head : Authenticator)
        (signer : Signer) (store : Store) (retriever : Retriever),
        env.LoadConfiguration = Except.ok c ∧
        GoMap.get w'.mux c.Services.Authentication
          = some (Handler.authentication parser head) ∧
        head.callback.responder.generator.entityId = c.EntityId ∧
        GoMap.get w'.mux c.Services.AttributeQuery
          = some (Handler.query signer retriever c.EntityId) ∧
        GoMap.get w'.mux c.Services.ArtifactResolution
          = some (Handler.artifact store signer c.EntityId)) := by
  constructor
  · intro c hc entry hentry issuer hissuer
    rcases New_mux_cases env w with hmux | ⟨c', store, signer, retriever, responder,
      passwordAuth, pkiAuth, k, hc', hgen, hpw, hpki, hmux⟩
    · rw [hmux] at hentry
      simp at hentry
    · rw [hc] at hc'
      cases hc'
      rw [hmux, List.drop_left] at hentry
      have hmem := List.mem_of_mem_take hentry
      subst hpki hpw
      simp only [List.mem_cons, List.mem_singleton, List.not_mem_nil, or_false] at hmem
      rcases hmem with rfl | rfl | rfl | rfl | rfl | rfl <;>
        simp [Handler.issuers, Authenticator.generators, Callback.responder, hgen] at hissuer <;>
        exact hissuer
  · intro w' i h
    obtain ⟨c, store, signer, retriever, responder, passwordAuth, pkiAuth, certC, keyC,
      peopleC, w2, hc, -, -, -, -, -, -, -, hresp, hpw, hpki, -, hauth, hart, hquery, -⟩ :=
      New_ok_inv env w w' i h
    subst hresp hpw hpki
    exact ⟨c, _, _, signer, store, retriever, hc, hauth, rfl, hquery, hart⟩

/-- Witness of C6 on the sample deployment. -/
theorem New_single_issuer_witness :
    ∃ (c : Configuration) (parser : RequestParser) (head : Authenticator)
      (signer : Signer) (store : Store) (retriever : Retriever),
      sampleEnv.LoadConfiguration = Except.ok c ∧
      GoMap.get (New sampleEnv freshWorld).1.mux c.Services.Authentication
        = some (Handler.authentication parser head) ∧
      head.callback.responder.generator.entityId = c.EntityId ∧
      GoMap.get (New sampleEnv freshWorld).1.mux c.Services.AttributeQuery
        = some (Handler.query signer retriever c.EntityId) ∧
      GoMap.get (New sampleEnv freshWorld).1.mux c.Services.ArtifactResolution
        = some (Handler.artifact store signer c.EntityId) :=
  (New_single_issuer sampleEnv freshWorld).2 (New sampleEnv freshWorld).1 sampleIdp rfl

/-- C7, counterexample: there are no two successful runs of `New`, whatever the
configurations, whose chains try their links in different orders. -/
theorem chain_order_configurable_counterexample :
    ¬ ∃ (env₁ env₂ : Env) (w₁ w₂ w₁' w₂' : World) (i₁ i₂ : idp)
        (c₁ c₂ : Configuration) (p₁ p₂ : RequestParser) (head₁ head₂ : Authenticator),
        New env₁ w₁ = (w₁', Result.ok i₁) ∧ New env₂ w₂ = (w₂', Result.ok i₂) ∧
        env₁.LoadConfiguration = Except.ok c₁ ∧ env₂.LoadConfiguration = Except.ok c₂ ∧
        GoMap.get w₁'.mux c₁.Services.Authentication
          = some (Handler.authentication p₁ head₁) ∧
        GoMap.get w₂'.mux c₂.Services.Authentication
          = some (Handler.authentication p₂ head₂) ∧
        head₁.links ≠ head₂.links := by
  rintro ⟨env₁, env₂, w₁, w₂, w₁', w₂', i₁, i₂, c₁, c₂, p₁, p₂, head₁, head₂,
    h₁, h₂, hc₁, hc₂, g₁, g₂, hne⟩
  obtain ⟨c, store, signer, retriever, responder, passwordAuth, pkiAuth, certC, keyC, peopleC,
    w2, hc, -, -, -, -, -, -, -, -, hpw, hpki, -, hauth, -⟩ := New_ok_inv env₁ w₁ w₁' i₁ h₁
  obtain ⟨c', store', signer', retriever', responder', passwordAuth', pkiAuth', certC', keyC',
    peopleC', w2', hc', -, -, -, -, -, -, -, -, hpw', hpki', -, hauth', -⟩ :=
    New_ok_inv env₂ w₂ w₂' i₂ h₂
  rw [hc₁] at hc
  rw [hc₂] at hc'
  cases hc
  cases hc'
  rw [g₁] at hauth
  rw [g₂] at hauth'
  simp only [Option.some.injEq, Handler.authentication.injEq] at hauth hauth'
  apply hne
  rw [hauth.2, hauth'.2, hpki, hpki', hpw, hpw']
  rfl

/-- C7, amended: the order in which the links are tried is fixed by `New`, not
configurable: whenever `New` succeeds, whatever the configuration, the chain
tries PKI first and Password second. -/
theorem New_chain_order_fixed (env : Env) (w w' : World) (i : idp)
    (h : New env w = (w', Result.ok i)) :
    ∃ (c : Configuration) (parser : RequestParser) (head : Authenticator)
      (cb : Callback) (store : Store),
      env.LoadConfiguration = Except.ok c ∧
      GoMap.get w'.mux c.Services.Authentication
        = some (Handler.authentication parser head) ∧
      head.links = [LinkKind.PKI, LinkKind.Password] ∧
      head = Authenticator.pki cb store
        (Authenticator.password cb store c.Authenticator.Fallback.Form) := by
  obtain ⟨c, store, signer, retriever, responder, passwordAuth, pkiAuth, certC, keyC, peopleC,
    w2, hc, -, -, -, -, -, -, -, -, hpw, hpki, -, hauth, -⟩ := New_ok_inv env w w' i h
  subst hpw hpki
  exact ⟨c, _, _, _, store, hc, hauth, rfl, rfl⟩

/-- Witness of the amended C7 on the sample deployment. -/
theorem New_chain_order_fixed_witness :
    ∃ (c : Configuration) (parser : RequestParser) (head : Authenticator)
      (cb : Callback) (store : Store),
      sampleEnv.LoadConfiguration = Except.ok c ∧
      GoMap.get (New sampleEnv freshWorld).1.mux c.Services.Authentication
        = some (Handler.authentication parser head) ∧
      head.links = [LinkKind.PKI, LinkKind.Password] ∧
      head = Authenticator.pki cb store
        (Authenticator.password cb store c.Authenticator.Fallback.Form) :=
  New_chain_order_fixed sampleEnv freshWorld (New sampleEnv freshWorld).1 sampleIdp rfl

/-- C8: whenever `New` succeeds, the TLS configuration of the returned server
sets `ClientAuth` to `RequestClientCert` and leaves every other field at its
zero value, so the client-certificate policy admits a connection with no
certificate as well as one with any certificate; the handler registered for
authentication then starts at the PKI link, which has a next link to delegate
to. -/
theorem New_tls_requests_client_cert (env : Env) (w w' : World) (i : idp)
    (h : New env w = (w', Result.ok i)) :
    ∃ (c : Configuration) (parser : RequestParser) (head : Authenticator),
      env.LoadConfiguration = Except.ok c ∧
      i.server.TLSConfig = { ClientAuth := ClientAuthType.RequestClientCert } ∧
      i.server.Addr = c.Address ∧
      requiresClientCert i.server.TLSConfig.ClientAuth = false ∧
      (∀ cert : Option ClientCertificate, acceptsClient i.server.TLSConfig cert = true) ∧
      GoMap.get w'.mux c.Services.Authentication
        = some (Handler.authentication parser head) ∧
      head.kind = LinkKind.PKI ∧ head.next.isSome = true := by
  obtain ⟨c, store, signer, retriever, responder, passwordAuth, pkiAuth, certC, keyC, peopleC,
    w2, hc, -, -, -, -, -, -, -, -, hpw, hpki, -, hauth, -, -, -, -, -, -, hi⟩ :=
    New_ok_inv env w w' i h
  subst hpw hpki hi
  refine ⟨c, _, _, hc, rfl, rfl, rfl, ?_, hauth, rfl, rfl⟩
  intro cert
  cases cert with
  | none => rfl
  | some x => simp [acceptsClient, ClientAuthType.toNat]

/-- Witness of C8 on the sample deployment. -/
theorem New_tls_requests_client_cert_witness :
    ∃ (c : Configuration) (parser : RequestParser) (head : Authenticator),
      sampleEnv.LoadConfiguration = Except.ok c ∧
      sampleIdp.server.TLSConfig = { ClientAuth := ClientAuthType.RequestClientCert } ∧
      sampleIdp.server.Addr = c.Address ∧
      requiresClientCert sampleIdp.server.TLSConfig.ClientAuth = false ∧
      (∀ cert : Option ClientCertificate,
        acceptsClient sampleIdp.server.TLSConfig cert = true) ∧
      GoMap.get (New sampleEnv freshWorld).1.mux c.Services.Authentication
        = some (Handler.authentication parser head) ∧
      head.kind = LinkKind.PKI ∧ head.next.isSome = true :=
  New_tls_requests_client_cert sampleEnv freshWorld (New sampleEnv freshWorld).1 sampleIdp rfl

/-- C9, counterexample: with both SOAP endpoints configured on one pattern, all
five fallible steps succeed, yet `New` returns neither an error nor an `idp`:
the second registration of the pattern panics inside `http.Handle`. -/
theorem New_returns_counterexample :
    firstFailure clashEnv = none ∧
    (New clashEnv freshWorld).2 = Result.panic "http: multiple registrations for /SAML2/SOAP" ∧
    (¬ ∃ i : idp, (New clashEnv freshWorld).2 = Result.ok i) ∧
    (¬ ∃ e : Error, (New clashEnv freshWorld).2 = Result.error e) := by
  have hres : (New clashEnv freshWorld).2
      = Result.panic "http: multiple registrations for /SAML2/SOAP" := rfl
  refine ⟨rfl, hres, ?_, ?_⟩
  · rintro ⟨i, hi⟩
    rw [hres] at hi
    cases hi
  · rintro ⟨e, he⟩
    rw [hres] at he
    cases he

/-- C9, amended: whenever `New` returns, that is whenever no `http.Handle`
registration panics, it returns an error exactly when one of the five steps
fails, the error being that of the first failing step in the order load
configuration, build signer, open attribute file, build retriever, build
metadata handler, and an `idp` otherwise.  A failure of one of the first four
steps leaves the serve mux as it was; a failure of the metadata step leaves
exactly the authentication, artifact resolution and attribute query handlers
registered on top of it. -/
theorem New_fails_in_step_order (env : Env) (w : World)
    (hnp : ∀ m : String, (New env w).2 ≠ Result.panic m) :
    (∀ (s : Step) (e : Error), firstFailure env = some (s, e) →
      (New env w).2 = Result.error e ∧
      (s ≠ Step.buildMetadataHandler → (New env w).1.mux = w.mux) ∧
      (s = Step.buildMetadataHandler →
        ∃ (c : Configuration) (parser : RequestParser) (head : Authenticator)
          (store : Store) (signer : Signer) (retriever : Retriever),
          env.LoadConfiguration = Except.ok c ∧
          (New env w).1.mux = w.mux ++
            [(c.Services.Authentication, Handler.authentication parser head),
             (c.Services.ArtifactResolution, Handler.artifact store signer c.EntityId),
             (c.Services.AttributeQuery, Handler.query signer retriever c.EntityId)])) ∧
    (firstFailure env = none → ∃ i : idp, (New env w).2 = Result.ok i) ∧
    (∀ e : Error, (New env w).2 = Result.error e → ∃ s : Step, firstFailure env = some (s, e)) ∧
    (∀ i : idp, (New env w).2 = Result.ok i → firstFailure env = none) := by
  rcases hN : New env w with ⟨w', r⟩
  rw [hN] at hnp
  cases r with
  | panic m => exact absurd rfl (hnp m)
  | ok i =>
    have hff := New_ok_firstFailure env w w' i hN
    refine ⟨?_, fun _ => ⟨i, rfl⟩, ?_, fun _ _ => hff⟩
    · intro s e hse
      rw [hff] at hse
      cases hse
    · intro e he
      cases he
  | error e =>
    obtain ⟨s, hs, h1, h2⟩ := New_error_inv env w w' e hN
    refine ⟨?_, ?_, ?_, ?_⟩
    · intro s' e' hse
      rw [hs] at hse
      simp only [Option.some.injEq, Prod.mk.injEq] at hse
      obtain ⟨rfl, rfl⟩ := hse
      exact ⟨rfl, h1, h2⟩
    · intro hnone
      rw [hs] at hnone
      cases hnone
    · intro e' he
      simp only [Result.error.injEq] at he
      subst he
      exact ⟨s, hs⟩
    · intro i hi
      cases hi

/-- Witness of the amended C9: in the sample deployment with a failing metadata
step `New` does not panic, so it returns that step's error with the three
handlers registered. -/
theorem New_fails_in_step_order_witness :
    (∀ m : String, (New metadataFailsEnv freshWorld).2 ≠ Result.panic m) ∧
    ((∀ (s : Step) (e : Error), firstFailure metadataFailsEnv = some (s, e) →
      (New metadataFailsEnv freshWorld).2 = Result.error e ∧
      (s ≠ Step.buildMetadataHandler → (New metadataFailsEnv freshWorld).1.mux = freshWorld.mux) ∧
      (s = Step.buildMetadataHandler →
        ∃ (c : Configuration) (parser : RequestParser) (head : Authenticator)
          (store : Store) (signer : Signer) (retriever : Retriever),
          metadataFailsEnv.LoadConfiguration = Except.ok c ∧
          (New metadataFailsEnv freshWorld).1.mux = freshWorld.mux ++
            [(c.Services.Authentication, Handler.authentication parser head),
             (c.Services.ArtifactResolution, Handler.artifact store signer c.EntityId),
             (c.Services.AttributeQuery, Handler.query signer retriever c.EntityId)])) ∧
    (firstFailure metadataFailsEnv = none →
      ∃ i : idp, (New metadataFailsEnv freshWorld).2 = Result.ok i) ∧
    (∀ e : Error, (New metadataFailsEnv freshWorld).2 = Result.error e →
      ∃ s : Step, firstFailure metadataFailsEnv = some (s, e)) ∧
    (∀ i : idp, (New metadataFailsEnv freshWorld).2 = Result.ok i →
      firstFailure metadataFailsEnv = none)) :=
  have hnp : ∀ m : String, (New metadataFailsEnv freshWorld).2 ≠ Result.panic m := by
    intro m hm
    have hres : (New metadataFailsEnv freshWorld).2
        = Result.error { msg := "metadata: bad certificate" } := rfl
    rw [hres] at hm
    cases hm
  ⟨hnp, New_fails_in_step_order metadataFailsEnv freshWorld hnp⟩

/-- C10: `getSigner` returns the error of opening `certPath` without opening
the key or calling `xmlsig.NewSigner`; else the error of opening `keyPath`,
again without calling `xmlsig.NewSigner`; when both open it calls
`xmlsig.NewSigner` once with the file of `keyPath` as key and the file of
`certPath` as certificate and returns its result.  `New` calls it with
`config.Certificate` and `config.Key`, returns its error if it fails, and on
success stores the same two values in the `idp`, from where `Start` passes them
to `ListenAndServeTLS` as certificate file and key file. -/
theorem getSigner_paths (env : Env) (w : World) :
    (∀ (certPath keyPath : String) (e : Error), env.fs certPath = Except.error e →
      (getSigner env w certPath keyPath).2 = Except.error e ∧
      (getSigner env w certPath keyPath).1.trace = w.trace ++ [Event.osOpen certPath] ∧
      newSignerCalls (getSigner env w certPath keyPath).1.trace = newSignerCalls w.trace ∧
      (getSigner env w certPath keyPath).1.nextId = w.nextId) ∧
    (∀ (certPath keyPath certC : String) (e : Error),
      env.fs certPath = Except.ok certC → env.fs keyPath = Except.error e →
      (getSigner env w certPath keyPath).2 = Except.error e ∧
      newSignerCalls (getSigner env w certPath keyPath).1.trace = newSignerCalls w.trace ∧
      (getSigner env w certPath keyPath).1.nextId = w.nextId) ∧
    (∀ (certPath keyPath certC keyC : String),
      env.fs certPath = Except.ok certC → env.fs keyPath = Except.ok keyC →
      newSignerCalls (getSigner env w certPath keyPath).1.trace
        = newSignerCalls w.trace ++
            [({ name := keyPath, content := keyC }, { name := certPath, content := certC })] ∧
      (∀ e : Error,
        env.signerError { name := keyPath, content := keyC }
          { name := certPath, content := certC } = some e →
        (getSigner env w certPath keyPath).2 = Except.error e) ∧
      (env.signerError { name := keyPath, content := keyC }
          { name := certPath, content := certC } = none →
        (getSigner env w certPath keyPath).2
          = Except.ok { id := w.nextId, key := { name := keyPath, content := keyC },
                        cert := { name := certPath, content := certC } })) ∧
    (∀ (c : Configuration) (w2 : World) (e : Error), env.LoadConfiguration = Except.ok c →
      getSigner env (storeNew w c.Redis.Address).1 c.Certificate c.Key = (w2, Except.error e) →
      New env w = (w2, Result.error e)) ∧
    (∀ (w' : World) (i : idp), New env w = (w', Result.ok i) →
      ∃ (c : Configuration) (w2 : World) (signer : Signer) (parser : RequestParser)
        (head : Authenticator),
        env.LoadConfiguration = Except.ok c ∧
        getSigner env (storeNew w c.Redis.Address).1 c.Certificate c.Key
          = (w2, Except.ok signer) ∧
        signer.cert.name = c.Certificate ∧ signer.key.name = c.Key ∧
        GoMap.get w'.mux c.Services.Authentication
          = some (Handler.authentication parser head) ∧
        GoMap.get head.callback.responder.marshallers
            "urn:oasis:names:tc:SAML:2.0:bindings:HTTP-POST"
          = some (ResponseMarshaller.post signer) ∧
        i.certificate = c.Certificate ∧ i.key = c.Key ∧
        Start env i = env.ListenAndServeTLS i.server c.Certificate c.Key) := by
  refine ⟨?_, ?_, ?_, ?_, ?_⟩
  · intro certPath keyPath e hc
    simp [getSigner, osOpen, hc, World.record, newSignerCalls_append, newSignerCalls]
  · intro certPath keyPath certC e hc hk
    simp [getSigner, osOpen, hc, hk, World.record, fileClose, newSignerCalls_append,
      newSignerCalls]
  · intro certPath keyPath certC keyC hc hk
    refine ⟨?_, ?_, ?_⟩
    · cases hs : env.signerError (File.mk keyPath keyC) (File.mk certPath certC) <;>
        simp [getSigner, osOpen, hc, hk, NewSigner, hs, World.record, fileClose,
          newSignerCalls_append, newSignerCalls]
    · intro e hs
      simp [getSigner, osOpen, hc, hk, NewSigner, hs]
    · intro hs
      simp [getSigner, osOpen, hc, hk, NewSigner, hs, World.record]
  · intro c w2 e hc hs
    simp [New, hc, hs]
  · intro w' i h
    obtain ⟨c, store, signer, retriever, responder, passwordAuth, pkiAuth, certC, keyC, peopleC,
      w2, hc, -, -, -, -, hsigner, hgs, -, hresp, hpw, hpki, -, hauth, -, -, -, -, -, -, hi⟩ :=
      New_ok_inv env w w' i h
    subst hresp hpw hpki hi
    refine ⟨c, w2, signer, _, _, hc, hgs, ?_, ?_, hauth, ?_, rfl, rfl, rfl⟩
    · rw [hsigner]
    · rw [hsigner]
    · simp [Authenticator.callback, Callback.responder, GoMap.get, bindingPOST]

/-- Witness of C10 on the sample deployment: the certificate and key files that
`Start` serves TLS with are the ones the signer was built from. -/
theorem getSigner_paths_witness :
    ∃ (c : Configuration) (w2 : World) (signer : Signer) (parser : RequestParser)
      (head : Authenticator),
      sampleEnv.LoadConfiguration = Except.ok c ∧
      getSigner sampleEnv (storeNew freshWorld c.Redis.Address).1 c.Certificate c.Key
        = (w2, Except.ok signer) ∧
      signer.cert.name = c.Certificate ∧ signer.key.name = c.Key ∧
      GoMap.get (New sampleEnv freshWorld).1.mux c.Services.Authentication
        = some (Handler.authentication parser head) ∧
      GoMap.get head.callback.responder.marshallers
          "urn:oasis:names:tc:SAML:2.0:bindings:HTTP-POST"
        = some (ResponseMarshaller.post signer) ∧
      sampleIdp.certificate = c.Certificate ∧ sampleIdp.key = c.Key ∧
      Start sampleEnv sampleIdp
        = sampleEnv.ListenAndServeTLS sampleIdp.server c.Certificate c.Key :=
  (getSigner_paths sampleEnv freshWorld).2.2.2.2 (New sampleEnv freshWorld).1 sampleIdp rfl

end server
